import Mathlib

/-!
Shallow embedding of the multi-agent system backend (`src/backend/src/`):
`Message`, `SessionEntry`, `Session`, `Agent` and `AgentSystem` with their
operations, followed by theorems about the documented behaviour.

Modelling conventions:
* `HashMap<String, _>` becomes an association list `List (String × _)`;
  lookup returns the first entry with the key, removal filters the key out,
  in-place mutation (`get_mut`) maps over the entries with the key.
* `HashSet<String>` becomes a duplicate-free `List String` (insertion is
  guarded by a membership test, exactly as `HashSet::insert` keeps one copy).
* `VecDeque<Message>` becomes a `List Message` whose head is the front
  (oldest) element: `push_back` appends, `pop_front` takes the head.
* A `tokio::task::JoinHandle<()>` is an opaque token, modelled as `Nat`;
  awaiting a handle is modelled by an oracle `panicked : Nat → Bool` giving
  the join outcome of each task.
* Rust methods that mutate through `&mut self` or through the interior
  `Mutex` of an `Agent` are modelled by explicit state passing: they return
  the updated value alongside the result.
* `SystemTime::now()` is an explicit `now : Nat` argument.
-/

set_option autoImplicit false

deriving instance DecidableEq for Except

namespace MultiAgent

/-- First-match association-list lookup (models `HashMap::get`). -/
def lookupA {α : Type} : List (String × α) → String → Option α
  | [], _ => none
  | (k, v) :: rest, key => if k = key then some v else lookupA rest key

/-- Apply `f` to the value stored at `key` (models mutation through
`HashMap::get_mut`; entries with other keys are untouched). -/
def updateA {α : Type} (l : List (String × α)) (key : String) (f : α → α) :
    List (String × α) :=
  l.map (fun p => if p.1 = key then (p.1, f p.2) else p)

/-- Drop the entry with `key` (models `HashMap::remove`). -/
def eraseA {α : Type} (l : List (String × α)) (key : String) : List (String × α) :=
  l.filter (fun p => p.1 != key)

@[simp] theorem lookupA_nil {α : Type} (key : String) :
    lookupA ([] : List (String × α)) key = none := rfl

@[simp] theorem lookupA_cons {α : Type} (k : String) (v : α) (rest : List (String × α))
    (key : String) :
    lookupA ((k, v) :: rest) key = if k = key then some v else lookupA rest key := rfl

@[simp] theorem updateA_nil {α : Type} (key : String) (f : α → α) :
    updateA ([] : List (String × α)) key f = [] := rfl

theorem updateA_cons {α : Type} (k : String) (v : α) (rest : List (String × α))
    (key : String) (f : α → α) :
    updateA ((k, v) :: rest) key f =
      (if k = key then (k, f v) else (k, v)) :: updateA rest key f := rfl

theorem lookupA_updateA_self {α : Type} (l : List (String × α)) (key : String)
    (f : α → α) : lookupA (updateA l key f) key = (lookupA l key).map f := by
  induction l with
  | nil => rfl
  | cons p rest ih =>
    obtain ⟨k, v⟩ := p
    rw [updateA_cons]
    by_cases hk : k = key
    · rw [if_pos hk]; simp [lookupA, hk]
    · rw [if_neg hk]; simp [lookupA, hk, ih]

theorem lookupA_updateA_ne {α : Type} (l : List (String × α)) (key key' : String)
    (f : α → α) (h : key' ≠ key) :
    lookupA (updateA l key f) key' = lookupA l key' := by
  induction l with
  | nil => rfl
  | cons p rest ih =>
    obtain ⟨k, v⟩ := p
    rw [updateA_cons]
    by_cases hk : k = key
    · rw [if_pos hk]
      have hkk' : ¬ k = key' := fun hc => h (hc ▸ hk)
      simp [lookupA, hkk', ih]
    · rw [if_neg hk]
      by_cases hk' : k = key' <;> simp [lookupA, hk', ih]

@[simp] theorem lookupA_eraseA_self {α : Type} (l : List (String × α)) (key : String) :
    lookupA (eraseA l key) key = none := by
  induction l with
  | nil => rfl
  | cons p rest ih =>
    obtain ⟨k, v⟩ := p
    by_cases hk : k = key
    · subst hk; simpa [eraseA] using ih
    · simp [eraseA, lookupA, hk] at ih ⊢; exact ih

theorem lookupA_eraseA_ne {α : Type} (l : List (String × α)) (key key' : String)
    (h : key' ≠ key) : lookupA (eraseA l key) key' = lookupA l key' := by
  induction l with
  | nil => rfl
  | cons p rest ih =>
    obtain ⟨k, v⟩ := p
    by_cases hk : k = key
    · subst hk; simp [eraseA, lookupA, Ne.symm h] at ih ⊢; exact ih
    · by_cases hk' : k = key'
      · subst hk'; simp [eraseA, lookupA, hk]
      · simp [eraseA, lookupA, hk, hk'] at ih ⊢; exact ih

theorem lookupA_append {α : Type} (l₁ l₂ : List (String × α)) (key : String) :
    lookupA (l₁ ++ l₂) key =
      ((lookupA l₁ key).rec (lookupA l₂ key) (fun v => some v) : Option α) := by
  induction l₁ with
  | nil => rfl
  | cons p rest ih =>
    obtain ⟨k, v⟩ := p
    by_cases hk : k = key <;> simp [lookupA, hk, ih]

theorem updateA_id {α : Type} (l : List (String × α)) (key : String) (f : α → α)
    (h : ∀ p ∈ l, p.1 = key → f p.2 = p.2) : updateA l key f = l := by
  induction l with
  | nil => rfl
  | cons p rest ih =>
    obtain ⟨k, v⟩ := p
    rw [updateA_cons, ih (fun q hq hq1 => h q (List.mem_cons_of_mem _ hq) hq1)]
    by_cases hk : k = key
    · rw [if_pos hk, h (k, v) (List.mem_cons_self _ _) hk]
    · rw [if_neg hk]

theorem mem_updateA {α : Type} (l : List (String × α)) (key : String) (f : α → α)
    (p : String × α) (hp : p ∈ updateA l key f) :
    ∃ q ∈ l, p = if q.1 = key then (q.1, f q.2) else q := by
  rcases List.mem_map.mp hp with ⟨q, hq, hq'⟩
  exact ⟨q, hq, hq'.symm⟩

/-! ### `src/backend/src/message.rs` -/

/-- `Message` struct: sender, recipient and content. -/
structure Message where
  from_ : String
  to_ : String
  content : String
  deriving DecidableEq

/-- `Message::new`. -/
def Message.new (from_ to_ content : String) : Message :=
  { from_ := from_, to_ := to_, content := content }

/-! ### `src/backend/src/session.rs` -/

/-- `SessionEntry`: one message with an optional response and a timestamp. -/
structure SessionEntry where
  message : Message
  response : Option String
  timestamp : Nat
  deriving DecidableEq

/-- `SessionEntry::new`. -/
def SessionEntry.new (message : Message) (now : Nat) : SessionEntry :=
  { message := message, response := none, timestamp := now }

/-- `SessionEntry::with_response`. -/
def SessionEntry.with_response (message : Message) (response : String) (now : Nat) :
    SessionEntry :=
  { message := message, response := some response, timestamp := now }

/-- `SessionEntry::set_response`. -/
def SessionEntry.set_response (e : SessionEntry) (response : String) : SessionEntry :=
  { e with response := some response }

/-- `Session`: entry log, pending FIFO queue (`message_stack`, a `VecDeque`
whose head is the front) and the consumer task's handle (opaque token). -/
structure Session where
  id : String
  entries : List SessionEntry
  message_stack : List Message
  created_at : Nat
  join_handle : Option Nat
  deriving DecidableEq

namespace Session

/-- `Session::new`. -/
def new (id : String) (now : Nat) : Session :=
  { id := id, entries := [], message_stack := [], created_at := now,
    join_handle := none }

/-- `impl Clone for Session`: copies every field except the join handle,
which cannot be cloned and becomes `None`. -/
def clone (s : Session) : Session :=
  { id := s.id, entries := s.entries, message_stack := s.message_stack,
    created_at := s.created_at, join_handle := none }

/-- `Session::add_message`. -/
def add_message (s : Session) (message : Message) (now : Nat) : Session :=
  { s with entries := s.entries ++ [SessionEntry.new message now] }

/-- `Session::add_message_with_response`. -/
def add_message_with_response (s : Session) (message : Message) (response : String)
    (now : Nat) : Session :=
  { s with entries := s.entries ++ [SessionEntry.with_response message response now] }

/-- `Session::set_last_response`: updates the last entry, no-op when empty. -/
def set_last_response (s : Session) (response : String) : Session :=
  match s.entries.getLast? with
  | none => s
  | some last => { s with entries := s.entries.dropLast ++ [last.set_response response] }

/-- `Session::entry_count`. -/
def entry_count (s : Session) : Nat := s.entries.length

/-- `Session::push_message_to_stack`: `VecDeque::push_back`. -/
def push_message_to_stack (s : Session) (message : Message) : Session :=
  { s with message_stack := s.message_stack ++ [message] }

/-- `Session::pop_message_from_stack`: `VecDeque::pop_front` (oldest first). -/
def pop_message_from_stack (s : Session) : Option Message × Session :=
  match s.message_stack with
  | [] => (none, s)
  | m :: rest => (some m, { s with message_stack := rest })

/-- `Session::is_message_stack_empty`. -/
def is_message_stack_empty (s : Session) : Bool := s.message_stack.isEmpty

/-- `Session::message_stack_size`. -/
def message_stack_size (s : Session) : Nat := s.message_stack.length

/-- `Session::set_join_handle`. -/
def set_join_handle (s : Session) (handle : Nat) : Session :=
  { s with join_handle := some handle }

/-- `Session::take_join_handle`: `Option::take`, leaving `None` behind. -/
def take_join_handle (s : Session) : Option Nat × Session :=
  (s.join_handle, { s with join_handle := none })

end Session

/-! ### `src/backend/src/errors.rs` -/

/-- `AgentError`. -/
inductive AgentError where
  | NotFound (name : String)
  | Exists (name : String)
  | NotConnected (from_ to_ : String)
  | NoActiveSession (name : String)
  deriving DecidableEq

/-- `SessionError`. -/
inductive SessionError where
  | NotFound (id : String)
  | Stopped (id : String)
  | Running (id : String)
  | Exists (id : String)
  deriving DecidableEq

/-! ### `src/backend/src/agent.rs`

`Agent`'s `connections` and `sessions` live behind `Arc<Mutex<_>>`, so the
Rust methods take `&self` and mutate in place; here each mutating method
returns the updated `Agent`. -/

/-- `Agent`: name, role, connection set and session map. -/
structure Agent where
  name : String
  role : String
  connections : List String
  sessions : List (String × Session)
  deriving DecidableEq

namespace Agent

/-- `Agent::new`. -/
def new (name role : String) : Agent :=
  { name := name, role := role, connections := [], sessions := [] }

/-- `Agent::connect_to`: `HashSet::insert` of the other name. -/
def connect_to (a : Agent) (other_agent_name : String) : Agent :=
  if other_agent_name ∈ a.connections then a
  else { a with connections := a.connections ++ [other_agent_name] }

/-- `Agent::disconnect_from`: `HashSet::remove` of the other name. -/
def disconnect_from (a : Agent) (other_agent_name : String) : Agent :=
  { a with connections := a.connections.filter (fun c => c != other_agent_name) }

/-- `Agent::is_connected_to`. -/
def is_connected_to (a : Agent) (other_agent_name : String) : Bool :=
  a.connections.contains other_agent_name

/-- `Agent::get_connections`. -/
def get_connections (a : Agent) : List String := a.connections

/-- `Agent::send_message`: appends the message to the session's pending
queue, `Err` when this agent does not know the session. -/
def send_message (a : Agent) (session_id : String) (message : Message) :
    Except String Agent :=
  match lookupA a.sessions session_id with
  | none => .error s!"Session \x27{session_id}\x27 not found"
  | some _ =>
      .ok { a with
        sessions :=
          updateA a.sessions session_id (fun s => s.push_message_to_stack message) }

/-- `Agent::create_session`. -/
def create_session (a : Agent) (session_id : String) (now : Nat) :
    Except String Agent :=
  match lookupA a.sessions session_id with
  | some _ => .error s!"Session \x27{session_id}\x27 already exists"
  | none =>
      .ok { a with sessions := a.sessions ++ [(session_id, Session.new session_id now)] }

/-- `Agent::get_session`: returns a clone of the stored session. -/
def get_session (a : Agent) (session_id : String) : Option Session :=
  (lookupA a.sessions session_id).map Session.clone

/-- `Agent::list_sessions`. -/
def list_sessions (a : Agent) : List String := a.sessions.map Prod.fst

/-- `Agent::remove_session`: returns the evicted session. -/
def remove_session (a : Agent) (session_id : String) :
    Except String (Session × Agent) :=
  match lookupA a.sessions session_id with
  | none => .error s!"Session \x27{session_id}\x27 not found"
  | some s => .ok (s, { a with sessions := eraseA a.sessions session_id })

/-- `Agent::set_session_join_handle`. -/
def set_session_join_handle (a : Agent) (session_id : String) (handle : Nat) :
    Except String Agent :=
  match lookupA a.sessions session_id with
  | none => .error s!"Session \x27{session_id}\x27 not found"
  | some _ =>
      .ok { a with
        sessions :=
          updateA a.sessions session_id (fun s => s.set_join_handle handle) }

/-- `Agent::start_session` spawns the consumer task (`tokio::spawn`) and
returns its `JoinHandle`; the handle is modelled as an opaque token, the
asynchronous loop itself is outside the embedding. -/
def start_session (_a : Agent) (_session_id : String) : Nat := 0

/-- Modelled from the spec: `Agent::take_session_join_handle` is called by
`AgentSystem::wait_for_session_tasks` but is absent from the sources; per the
spec the caller "collects every agent's task handle for `id` (if any)", i.e.
it takes the handle out of this agent's session (`Session::take_join_handle`,
leaving `None`) when the session exists, and yields nothing otherwise. -/
def take_session_join_handle (a : Agent) (session_id : String) :
    Option Nat × Agent :=
  match lookupA a.sessions session_id with
  | none => (none, a)
  | some s =>
      (s.join_handle,
       { a with
          sessions :=
            updateA a.sessions session_id (fun s2 => (s2.take_join_handle).2) })

end Agent

/-! ### `src/backend/src/agent_system.rs` -/

/-- The error of `AgentSystem::send_message` (`Box<dyn Error>` in the
source): either an `AgentError` raised by the system itself, or the string
error propagated from `Agent::send_message`. -/
inductive SendError where
  | agentErr (e : AgentError)
  | sessionErr (msg : String)
  deriving DecidableEq

/-- `AgentSystem`: agent registry, known session ids and the single active
session. -/
structure AgentSystem where
  agents : List (String × Agent)
  session_ids : List String
  active_session : Option String
  deriving DecidableEq

namespace AgentSystem

/-- `AgentSystem::new`. -/
def new : AgentSystem :=
  { agents := [], session_ids := [], active_session := none }

/-- `AgentSystem::add_agent`. -/
def add_agent (sys : AgentSystem) (agent : Agent) :
    Except AgentError Unit × AgentSystem :=
  if (lookupA sys.agents agent.name).isSome then
    (.error (.Exists agent.name), sys)
  else
    (.ok (), { sys with agents := sys.agents ++ [(agent.name, agent)] })

/-- `AgentSystem::remove_connections`: disconnect every agent whose name
differs from `agent_name` from `agent_name`. -/
def remove_connections (sys : AgentSystem) (agent_name : String) : AgentSystem :=
  { sys with agents := sys.agents.map (fun p =>
      if p.2.name != agent_name then (p.1, p.2.disconnect_from agent_name) else p) }

/-- `AgentSystem::remove_agent`. -/
def remove_agent (sys : AgentSystem) (name : String) :
    Except AgentError Agent × AgentSystem :=
  if (lookupA sys.agents name).isSome then
    let sys1 := remove_connections sys name
    match lookupA sys1.agents name with
    | none => (.error (.NotFound name), sys1)
    | some ag => (.ok ag, { sys1 with agents := eraseA sys1.agents name })
  else
    (.error (.NotFound name), sys)

/-- `AgentSystem::get_agent`. -/
def get_agent (sys : AgentSystem) (name : String) : Option Agent :=
  lookupA sys.agents name

/-- `AgentSystem::connect_agents`: bidirectional connect, `NotFound` when
either name is unregistered. -/
def connect_agents (sys : AgentSystem) (agent1_name agent2_name : String) :
    Except AgentError Unit × AgentSystem :=
  if (lookupA sys.agents agent1_name).isNone then
    (.error (.NotFound agent1_name), sys)
  else if (lookupA sys.agents agent2_name).isNone then
    (.error (.NotFound agent2_name), sys)
  else
    let agents1 := updateA sys.agents agent1_name (fun a => a.connect_to agent2_name)
    let agents2 := updateA agents1 agent2_name (fun a => a.connect_to agent1_name)
    (.ok (), { sys with agents := agents2 })

/-- `AgentSystem::disconnect_agents`: bidirectional disconnect; `if let`
on each lookup, always `Ok`. -/
def disconnect_agents (sys : AgentSystem) (agent1_name agent2_name : String) :
    Except String Unit × AgentSystem :=
  let agents1 := updateA sys.agents agent1_name (fun a => a.disconnect_from agent2_name)
  let agents2 := updateA agents1 agent2_name (fun a => a.disconnect_from agent1_name)
  (.ok (), { sys with agents := agents2 })

/-- `AgentSystem::get_active_session`. -/
def get_active_session (sys : AgentSystem) : Option String :=
  sys.active_session

/-- `AgentSystem::send_message`: sender and recipient must be registered,
`from` connected to `to`, an active session set; then the message is
enqueued via the recipient's `Agent::send_message` (whose error, if any,
propagates). -/
def send_message (sys : AgentSystem) (from_ to_ : String) (content : String) :
    Except SendError Message × AgentSystem :=
  match lookupA sys.agents from_ with
  | none => (.error (.agentErr (.NotFound from_)), sys)
  | some sender =>
    match lookupA sys.agents to_ with
    | none => (.error (.agentErr (.NotFound to_)), sys)
    | some recipient =>
      if sender.is_connected_to to_ then
        match sys.get_active_session with
        | none => (.error (.agentErr (.NoActiveSession to_)), sys)
        | some session_id =>
          let message := Message.new from_ to_ content
          match recipient.send_message session_id message with
          | .error e => (.error (.sessionErr e), sys)
          | .ok recipient2 =>
              (.ok message,
               { sys with agents := updateA sys.agents to_ (fun _ => recipient2) })
      else
        (.error (.agentErr (.NotConnected from_ to_)), sys)

/-- The loop body of `AgentSystem::send_broadcast`: for each connection in
turn, skip it when it is unregistered, when no active session is set, or
when its `Agent::send_message` fails; otherwise enqueue and collect the
message. -/
def broadcast_loop (from_ content : String) :
    List String → AgentSystem → List Message → List Message × AgentSystem
  | [], sys, sent => (sent, sys)
  | recipient_name :: rest, sys, sent =>
    match lookupA sys.agents recipient_name with
    | none => broadcast_loop from_ content rest sys sent
    | some recipient =>
      match sys.get_active_session with
      | none => broadcast_loop from_ content rest sys sent
      | some session_id =>
        let message := Message.new from_ recipient_name content
        match recipient.send_message session_id message with
        | .ok recipient2 =>
            broadcast_loop from_ content rest
              { sys with agents := updateA sys.agents recipient_name (fun _ => recipient2) }
              (sent ++ [message])
        | .error _ => broadcast_loop from_ content rest sys sent

/-- `AgentSystem::send_broadcast`. -/
def send_broadcast (sys : AgentSystem) (from_ : String) (content : String) :
    Except String (List Message) × AgentSystem :=
  match lookupA sys.agents from_ with
  | none => (.error s!"Sender agent \x27{from_}\x27 not found", sys)
  | some sender =>
    let (sent, sys2) := broadcast_loop from_ content sender.get_connections sys []
    (.ok sent, sys2)

/-- The loop of `AgentSystem::create_session` over all agents: create the
session in each agent (`?` aborts, leaving the remaining agents untouched),
start the consumer task and store its handle (result discarded). -/
def create_session_loop (session_id : String) (now : Nat) :
    List (String × Agent) → Except String Unit × List (String × Agent)
  | [] => (.ok (), [])
  | (k, agent) :: rest =>
    match agent.create_session session_id now with
    | .error e => (.error e, (k, agent) :: rest)
    | .ok agent1 =>
      let join_handle := agent1.start_session session_id
      let agent2 :=
        match agent1.set_session_join_handle session_id join_handle with
        | .ok a => a
        | .error _ => agent1
      let (r, rest2) := create_session_loop session_id now rest
      (r, (k, agent2) :: rest2)

/-- `AgentSystem::create_session`. -/
def create_session (sys : AgentSystem) (session_id : String) (now : Nat) :
    Except String Unit × AgentSystem :=
  if session_id ∈ sys.session_ids then
    (.error s!"Session \x27{session_id}\x27 already exists", sys)
  else
    match create_session_loop session_id now sys.agents with
    | (.error e, agents2) => (.error e, { sys with agents := agents2 })
    | (.ok (), agents2) =>
      let active2 :=
        match sys.active_session with
        | none => some session_id
        | some a => some a
      (.ok (), { agents := agents2, session_ids := sys.session_ids ++ [session_id],
                 active_session := active2 })

/-- `AgentSystem::set_active_session`. -/
def set_active_session (sys : AgentSystem) (session_id : String) :
    Except SessionError Unit × AgentSystem :=
  if session_id ∈ sys.session_ids then
    (.ok (), { sys with active_session := some session_id })
  else
    (.error (.NotFound session_id), sys)

/-- `AgentSystem::list_all_sessions`. -/
def list_all_sessions (sys : AgentSystem) : List String :=
  sys.session_ids

/-- `AgentSystem::remove_session`: best-effort removal from every agent,
removal from the session-id set, and clearing of `active_session` when it
equals the removed id; always `Ok`. -/
def remove_session (sys : AgentSystem) (session_id : String) :
    Except String Unit × AgentSystem :=
  let agents2 := sys.agents.map (fun p =>
    match p.2.remove_session session_id with
    | .ok (_, ag) => (p.1, ag)
    | .error _ => p)
  let active2 :=
    match sys.active_session with
    | some active => if active = session_id then none else some active
    | none => none
  (.ok (), { agents := agents2,
             session_ids := sys.session_ids.filter (fun s => s != session_id),
             active_session := active2 })

/-- The handle-collection pass of `AgentSystem::wait_for_session_tasks`:
take each agent's handle for the session, in registry order. -/
def collect_handles (session_id : String) :
    List (String × Agent) → List Nat × List (String × Agent)
  | [] => ([], [])
  | (k, agent) :: rest =>
    let (h, agent2) := agent.take_session_join_handle session_id
    let (hs, rest2) := collect_handles session_id rest
    (match h with | some handle => handle :: hs | none => hs, (k, agent2) :: rest2)

/-- `AgentSystem::wait_for_session_tasks`: collect all handles, fail when
none exist, otherwise remove the session (signalling the tasks to exit) and
await the handles; `panicked` is the oracle giving each task's join
outcome (`true` = the task panicked). -/
def wait_for_session_tasks (sys : AgentSystem) (session_id : String)
    (panicked : Nat → Bool) : Except String Unit × AgentSystem :=
  let (handles, agents2) := collect_handles session_id sys.agents
  let sys1 := { sys with agents := agents2 }
  if handles.isEmpty then
    (.error s!"No active processing tasks found for session \x27{session_id}\x27", sys1)
  else
    match remove_session sys1 session_id with
    | (.error e, sys2) => (.error e, sys2)
    | (.ok (), sys2) =>
      if handles.any panicked then (.error "Some tasks panicked", sys2)
      else (.ok (), sys2)

end AgentSystem

/-! ### Derived notions used by the theorems -/

/-- Enqueue a list of messages in order via `Session.push_message_to_stack`. -/
def push_all (s : Session) : List Message → Session
  | [] => s
  | m :: rest => push_all (s.push_message_to_stack m) rest

/-- Repeatedly `Session.pop_message_from_stack` until it returns `none`,
collecting the popped messages in order. -/
def drain (s : Session) : List Message :=
  match h : s.pop_message_from_stack with
  | (none, _) => []
  | (some m, s2) => m :: drain s2
termination_by s.message_stack.length
decreasing_by
  unfold Session.pop_message_from_stack at h
  rcases hl : s.message_stack with _ | ⟨m0, rest⟩ <;> rw [hl] at h
  · cases h
  · cases h; simp [hl]

theorem push_all_stack (msgs : List Message) (s : Session) :
    (push_all s msgs).message_stack = s.message_stack ++ msgs := by
  induction msgs generalizing s with
  | nil => simp [push_all]
  | cons m rest ih => simp [push_all, Session.push_message_to_stack, ih]

theorem drain_pop (t : Session) :
    drain t = match t.pop_message_from_stack with
      | (none, _) => []
      | (some m, t2) => m :: drain t2 := by
  rw [drain]
  split
  · rename_i snd heq; rw [heq]
  · rename_i m s2 heq; rw [heq]

theorem drain_eq_stack (s : Session) : drain s = s.message_stack := by
  suffices h : ∀ (l : List Message) (t : Session), t.message_stack = l → drain t = l from
    h _ s rfl
  intro l
  induction l with
  | nil => intro t hl; rw [drain_pop]; simp [Session.pop_message_from_stack, hl]
  | cons m rest ih =>
    intro t hl
    rw [drain_pop]
    simp only [Session.pop_message_from_stack, hl]
    rw [ih _ rfl]

/-- **C4** For every sequence of messages pushed to one session's pending
queue via `push_message_to_stack`, repeated `pop_message_from_stack` (the
`drain` function) returns them in exactly the order they were pushed —
strict FIFO despite the "stack" naming — and pop on an empty queue returns
`none`. -/
theorem c4_queue_fifo (s : Session) (msgs : List Message)
    (h : s.message_stack = []) :
    drain (push_all s msgs) = msgs ∧
    (s.pop_message_from_stack).1 = none ∧
    (∀ t : Session, drain t =
      match t.pop_message_from_stack with
      | (none, _) => []
      | (some m, t2) => m :: drain t2) := by
  refine ⟨?_, ?_, ?_⟩
  · rw [drain_eq_stack, push_all_stack, h, List.nil_append]
  · simp [Session.pop_message_from_stack, h]
  · intro t; exact drain_pop t

/-- **C4** witness: a concrete two-message FIFO round trip. -/
theorem c4_queue_fifo_witness :
    drain (push_all (Session.new "q" 0)
        [Message.new "a" "b" "m1", Message.new "a" "b" "m2"]) =
      [Message.new "a" "b" "m1", Message.new "a" "b" "m2"] ∧
    ((Session.new "q" 0).pop_message_from_stack).1 = none := by
  have h := c4_queue_fifo (Session.new "q" 0)
    [Message.new "a" "b" "m1", Message.new "a" "b" "m2"] rfl
  exact ⟨h.1, h.2.1⟩

/-- **C9** Cloning a `Session` produces a frozen snapshot: the clone's id,
entries, pending queue and creation time equal the original's, while the
clone's task join handle is always `none`; `Agent::get_session` returns
exactly such a snapshot of the stored session (or `none` when absent). -/
theorem c9_session_clone_snapshot (s : Session) (a : Agent) (session_id : String) :
    (s.clone.id = s.id ∧ s.clone.entries = s.entries ∧
     s.clone.message_stack = s.message_stack ∧
     s.clone.created_at = s.created_at ∧
     s.clone.join_handle = none) ∧
    (∀ s0, lookupA a.sessions session_id = some s0 →
      a.get_session session_id = some s0.clone) ∧
    (lookupA a.sessions session_id = none → a.get_session session_id = none) := by
  refine ⟨⟨rfl, rfl, rfl, rfl, rfl⟩, ?_, ?_⟩
  · intro s0 h; simp [Agent.get_session, h]
  · intro h; simp [Agent.get_session, h]

/-- **C9** witness: a session holding a live handle is cloned without it. -/
theorem c9_session_clone_snapshot_witness :
    (⟨"s1", [], [], 3, some 7⟩ : Session).clone.join_handle = none ∧
    (Agent.mk "A" "r" [] [("s1", ⟨"s1", [], [], 3, some 7⟩)]).get_session "s1" =
      some (⟨"s1", [], [], 3, some 7⟩ : Session).clone := by
  have h := c9_session_clone_snapshot (⟨"s1", [], [], 3, some 7⟩ : Session)
    (Agent.mk "A" "r" [] [("s1", ⟨"s1", [], [], 3, some 7⟩)]) "s1"
  exact ⟨h.1.2.2.2.2, h.2.1 _ (by decide)⟩

theorem map_id_of {α : Type} (l : List α) (f : α → α) (h : ∀ a ∈ l, f a = a) :
    l.map f = l := by
  induction l with
  | nil => rfl
  | cons x xs ih =>
    simp only [List.map_cons, h x (List.mem_cons_self _ _),
      ih (fun a ha => h a (List.mem_cons_of_mem _ ha))]

/-- **C10** `AgentSystem::remove_session` never returns an error, and when
the removed id is unknown to the system (not in `session_ids`, hence — by
the documented invariant — not the active session) and to every agent, the
call leaves every agent's session map, the session-id set and
`active_session` unchanged. -/
theorem c10_remove_session_total (sys : AgentSystem) (session_id : String) :
    ((sys.remove_session session_id).1 = .ok ()) ∧
    (session_id ∉ sys.session_ids →
     (∀ p ∈ sys.agents, lookupA p.2.sessions session_id = none) →
     (∀ a, sys.active_session = some a → a ∈ sys.session_ids) →
     (sys.remove_session session_id).2 = sys) := by
  constructor
  · rfl
  · intro h1 h2 h3
    obtain ⟨ags, ids, act⟩ := sys
    simp only [AgentSystem.remove_session, AgentSystem.mk.injEq]
    refine ⟨?_, ?_, ?_⟩
    · refine map_id_of _ _ (fun p hp => ?_)
      have := h2 p hp
      simp [Agent.remove_session, this]
    · refine List.filter_eq_self.mpr (fun a ha => ?_)
      simp only [bne_iff_ne, ne_eq]
      intro hc; exact h1 (hc ▸ ha)
    · rcases hact : act with _ | a
      · rfl
      · have ha : a ∈ ids := h3 a (by rw [hact])
        have : a ≠ session_id := fun hc => h1 (hc ▸ ha)
        simp [this]

theorem connect_to_self_connected (a : Agent) (n : String) :
    (a.connect_to n).is_connected_to n = true := by
  unfold Agent.connect_to Agent.is_connected_to
  by_cases h : n ∈ a.connections
  · simpa [h] using h
  · simp [h]

theorem disconnect_from_self_disconnected (a : Agent) (n : String) :
    (a.disconnect_from n).is_connected_to n = false := by
  simp [Agent.disconnect_from, Agent.is_connected_to]

theorem disconnect_from_idem (a : Agent) (n : String) :
    (a.disconnect_from n).disconnect_from n = a.disconnect_from n := by
  simp [Agent.disconnect_from, List.filter_filter]

/-- **C2** For registered agents `a` and `b`, `connect_agents` succeeds and
makes `a.is_connected_to b` and `b.is_connected_to a` both hold;
`disconnect_agents` succeeds and makes neither hold; and disconnecting is
idempotent — repeating it returns `Ok` again and leaves the state exactly
as after the first disconnect (in particular there is no error when the two
are not connected). -/
theorem c2_connect_disconnect (sys : AgentSystem) (a b : String)
    (ha : (lookupA sys.agents a).isSome = true)
    (hb : (lookupA sys.agents b).isSome = true) :
    ((sys.connect_agents a b).1 = .ok ()) ∧
    ((lookupA (sys.connect_agents a b).2.agents a).map
        (fun ag => ag.is_connected_to b) = some true) ∧
    ((lookupA (sys.connect_agents a b).2.agents b).map
        (fun ag => ag.is_connected_to a) = some true) ∧
    ((sys.disconnect_agents a b).1 = .ok ()) ∧
    ((lookupA (sys.disconnect_agents a b).2.agents a).map
        (fun ag => ag.is_connected_to b) = some false) ∧
    ((lookupA (sys.disconnect_agents a b).2.agents b).map
        (fun ag => ag.is_connected_to a) = some false) ∧
    ((sys.disconnect_agents a b).2.disconnect_agents a b
      = (.ok (), (sys.disconnect_agents a b).2)) := by
  obtain ⟨aga, hga⟩ := Option.isSome_iff_exists.mp ha
  obtain ⟨agb, hgb⟩ := Option.isSome_iff_exists.mp hb
  by_cases hab : a = b
  · subst hab
    refine ⟨?_, ?_, ?_, ?_, ?_, ?_, ?_⟩
    · simp [AgentSystem.connect_agents, hga]
    · simp [AgentSystem.connect_agents, hga, lookupA_updateA_self,
        connect_to_self_connected]
    · simp [AgentSystem.connect_agents, hga, lookupA_updateA_self,
        connect_to_self_connected]
    · rfl
    · simp [AgentSystem.disconnect_agents, hga, lookupA_updateA_self,
        disconnect_from_self_disconnected]
    · simp [AgentSystem.disconnect_agents, hga, lookupA_updateA_self,
        disconnect_from_self_disconnected]
    · simp only [AgentSystem.disconnect_agents, Prod.mk.injEq, true_and]
      simp only [updateA, List.map_map]
      congr 1
      refine List.map_congr_left (fun p _ => ?_)
      obtain ⟨k, v⟩ := p
      by_cases hk : k = a <;> simp [hk, Function.comp, disconnect_from_idem]
  · refine ⟨?_, ?_, ?_, ?_, ?_, ?_, ?_⟩
    · simp [AgentSystem.connect_agents, hga, hgb]
    · simp [AgentSystem.connect_agents, hga, hgb,
        lookupA_updateA_ne _ b a _ hab, lookupA_updateA_self,
        connect_to_self_connected]
    · simp [AgentSystem.connect_agents, hga, hgb, lookupA_updateA_self,
        lookupA_updateA_ne _ a b _ (Ne.symm hab), connect_to_self_connected]
    · rfl
    · simp [AgentSystem.disconnect_agents, lookupA_updateA_ne _ b a _ hab,
        lookupA_updateA_self, hga, disconnect_from_self_disconnected]
    · simp [AgentSystem.disconnect_agents, lookupA_updateA_self,
        lookupA_updateA_ne _ a b _ (Ne.symm hab), hgb,
        disconnect_from_self_disconnected]
    · simp only [AgentSystem.disconnect_agents, Prod.mk.injEq, true_and]
      simp only [updateA, List.map_map]
      congr 1
      refine List.map_congr_left (fun p _ => ?_)
      obtain ⟨k, v⟩ := p
      by_cases hk1 : k = a <;> by_cases hk2 : k = b
      · exact absurd (hk1 ▸ hk2) hab
      · simp [hk1, hk2, hab, Ne.symm hab, Function.comp, disconnect_from_idem]
      · simp [hk1, hk2, hab, Ne.symm hab, Function.comp, disconnect_from_idem]
      · simp [hk1, hk2, Function.comp]

/-- A concrete two-agent system used by the C2 witness. -/
def c2sys : AgentSystem :=
  ((AgentSystem.new.add_agent (Agent.new "A" "r1")).2.add_agent
    (Agent.new "B" "r2")).2

/-- **C2** witness: connecting then disconnecting two concrete registered
agents behaves as stated. -/
theorem c2_connect_disconnect_witness :
    ((c2sys.connect_agents "A" "B").1 = .ok ()) ∧
    ((lookupA (c2sys.connect_agents "A" "B").2.agents "A").map
        (fun ag => ag.is_connected_to "B") = some true) ∧
    ((lookupA (c2sys.disconnect_agents "A" "B").2.agents "A").map
        (fun ag => ag.is_connected_to "B") = some false) := by
  have h := c2_connect_disconnect c2sys "A" "B" (by decide) (by decide)
  exact ⟨h.1, h.2.1, h.2.2.2.2.1⟩

theorem mem_eraseA {α : Type} (l : List (String × α)) (key : String)
    (p : String × α) (hp : p ∈ eraseA l key) : p ∈ l ∧ p.1 ≠ key := by
  have h := List.mem_filter.mp hp
  exact ⟨h.1, by simpa using h.2⟩

theorem lookupA_remove_sweep (l : List (String × Agent)) (name : String)
    (wf : ∀ p ∈ l, p.2.name = p.1) :
    lookupA (l.map (fun p =>
        if p.2.name != name then (p.1, p.2.disconnect_from name) else p)) name =
      lookupA l name := by
  induction l with
  | nil => rfl
  | cons q rest ih =>
    obtain ⟨k, v⟩ := q
    have hv : v.name = k := wf (k, v) (List.mem_cons_self _ _)
    have ih2 := ih (fun p hp => wf p (List.mem_cons_of_mem _ hp))
    by_cases hk : k = name
    · have hfalse : (v.name != name) = false := by simp [hv, hk]
      simp only [List.map_cons, hfalse, Bool.false_eq_true, if_false, lookupA_cons]
      rw [if_pos hk, if_pos hk]
    · have htrue : (v.name != name) = true := by simp [hv, hk]
      simp only [List.map_cons, htrue, if_true, lookupA_cons]
      rw [if_neg hk, if_neg hk, ih2]

/-- **C3** `remove_agent(A)` fails with `NotFound` (changing nothing) when
`A` is unregistered; on success it returns the removed agent, `A` is gone
from the registry, and no remaining agent's connection set contains `A`
(every back-reference was swept first). -/
theorem c3_remove_agent_spec (sys : AgentSystem) (name : String) :
    (lookupA sys.agents name = none →
      sys.remove_agent name = (.error (.NotFound name), sys)) ∧
    (∀ ag0, lookupA sys.agents name = some ag0 →
      (∀ p ∈ sys.agents, p.2.name = p.1) →
      (sys.remove_agent name).1 = .ok ag0 ∧
      lookupA (sys.remove_agent name).2.agents name = none ∧
      (∀ p ∈ (sys.remove_agent name).2.agents,
        p.2.is_connected_to name = false)) := by
  constructor
  · intro h
    simp [AgentSystem.remove_agent, h]
  · intro ag0 h wf
    have hsome : (lookupA sys.agents name).isSome = true := by rw [h]; rfl
    have hl : lookupA (sys.remove_connections name).agents name = some ag0 := by
      show lookupA (sys.agents.map _) name = some ag0
      rw [lookupA_remove_sweep sys.agents name wf]; exact h
    have hstate : (sys.remove_agent name).2 =
        { sys.remove_connections name with
            agents := eraseA (sys.remove_connections name).agents name } := by
      simp [AgentSystem.remove_agent, hsome, hl]
    refine ⟨?_, ?_, ?_⟩
    · simp [AgentSystem.remove_agent, hsome, hl]
    · rw [hstate]; exact lookupA_eraseA_self _ _
    · intro p hp
      rw [hstate] at hp
      obtain ⟨hpmem, hpne⟩ := mem_eraseA _ _ _ hp
      rcases List.mem_map.mp hpmem with ⟨q, hq, hq'⟩
      obtain ⟨k, v⟩ := q
      have hv : v.name = k := wf (k, v) hq
      by_cases hk : k = name
      · have hfalse : (v.name != name) = false := by simp [hv, hk]
        rw [hfalse] at hq'
        simp only [Bool.false_eq_true, if_false] at hq'
        rw [← hq'] at hpne
        exact absurd hk hpne
      · have htrue : (v.name != name) = true := by simp [hv, hk]
        rw [htrue] at hq'
        simp only [if_true] at hq'
        rw [← hq']
        exact disconnect_from_self_disconnected v name

/-- A concrete connected three-agent system used by the C3 witness. -/
def c3sys : AgentSystem :=
  let s1 := (AgentSystem.new.add_agent (Agent.new "A" "r1")).2
  let s2 := (s1.add_agent (Agent.new "B" "r2")).2
  let s3 := (s2.add_agent (Agent.new "C" "r3")).2
  let s4 := (s3.connect_agents "A" "B").2
  (s4.connect_agents "A" "C").2

/-- **C3** witness: removing a connected concrete agent sweeps every
back-reference to it. -/
theorem c3_remove_agent_spec_witness :
    (c3sys.remove_agent "A").1 = .ok (Agent.mk "A" "r1" ["B", "C"] []) ∧
    lookupA (c3sys.remove_agent "A").2.agents "A" = none ∧
    (∀ p ∈ (c3sys.remove_agent "A").2.agents,
      p.2.is_connected_to "A" = false) := by
  have h := (c3_remove_agent_spec c3sys "A").2 (Agent.mk "A" "r1" ["B", "C"] [])
    (by decide) (by decide)
  exact ⟨h.1, h.2.1, h.2.2⟩

/-- A concrete system with one agent and one session, used by witnesses. -/
def c10sys : AgentSystem :=
  (((AgentSystem.new.add_agent (Agent.new "A" "role")).2).create_session "s1" 0).2

theorem create_session_mem (sys sys1 : AgentSystem) (session_id : String) (now : Nat)
    (h : sys.create_session session_id now = (.ok (), sys1)) :
    session_id ∈ sys1.session_ids := by
  unfold AgentSystem.create_session at h
  by_cases hmem : session_id ∈ sys.session_ids
  · rw [if_pos hmem] at h; simp at h
  · rw [if_neg hmem] at h
    rcases hl : AgentSystem.create_session_loop session_id now sys.agents with ⟨r, ags⟩
    rw [hl] at h
    rcases r with e | u
    · simp at h
    · obtain ⟨⟩ := u
      have h2 := congrArg Prod.snd h
      simp only at h2
      rw [← h2]
      simp

theorem remove_session_agents_none (sys : AgentSystem) (session_id : String) :
    ∀ p ∈ (sys.remove_session session_id).2.agents,
      lookupA p.2.sessions session_id = none := by
  intro p hp
  simp only [AgentSystem.remove_session] at hp
  rcases List.mem_map.mp hp with ⟨q, hq, hq'⟩
  rcases hrm : q.2.remove_session session_id with e | pr
  · rw [← hq']
    simp only [hrm]
    unfold Agent.remove_session at hrm
    rcases hlq : lookupA q.2.sessions session_id with _ | s
    · rfl
    · rw [hlq] at hrm; cases hrm
  · rw [← hq']
    simp only [hrm]
    unfold Agent.remove_session at hrm
    rcases hlq : lookupA q.2.sessions session_id with _ | s
    · rw [hlq] at hrm; cases hrm
    · rw [hlq] at hrm
      injection hrm with h2
      rw [← h2]
      exact lookupA_eraseA_self _ _

theorem create_session_loop_ok (session_id : String) (now : Nat)
    (agents : List (String × Agent))
    (h : ∀ p ∈ agents, lookupA p.2.sessions session_id = none) :
    (AgentSystem.create_session_loop session_id now agents).1 = .ok () := by
  induction agents with
  | nil => rfl
  | cons q rest ih =>
    obtain ⟨k, agent⟩ := q
    have hq : lookupA agent.sessions session_id = none :=
      h (k, agent) (List.mem_cons_self _ _)
    have ih2 := ih (fun p hp => h p (List.mem_cons_of_mem _ hp))
    unfold AgentSystem.create_session_loop
    simp only [Agent.create_session, hq]
    rcases hr : AgentSystem.create_session_loop session_id now rest with ⟨r, rest2⟩
    rw [hr] at ih2
    simpa [hr] using ih2

/-- **C5** `create_session(id)` twice in a row fails the second time with
the already-exists error and leaves the system unchanged by the second
call; `remove_session(id)` followed by `create_session(id)` succeeds. -/
theorem c5_create_twice_and_recreate (sys : AgentSystem) (session_id : String)
    (now1 now2 : Nat) :
    (∀ now0 sys1, sys.create_session session_id now0 = (.ok (), sys1) →
      sys1.create_session session_id now1 =
        (.error s!"Session \x27{session_id}\x27 already exists", sys1)) ∧
    (((sys.remove_session session_id).2.create_session session_id now2).1 =
      .ok ()) := by
  constructor
  · intro now0 sys1 h
    have hmem := create_session_mem sys sys1 session_id now0 h
    simp [AgentSystem.create_session, hmem]
  · have hnone : session_id ∉ (sys.remove_session session_id).2.session_ids := by
      simp [AgentSystem.remove_session, List.mem_filter]
    have hagents := remove_session_agents_none sys session_id
    unfold AgentSystem.create_session
    rw [if_neg hnone]
    rcases hl : AgentSystem.create_session_loop session_id now2
        (sys.remove_session session_id).2.agents with ⟨r, ags⟩
    have hok := create_session_loop_ok session_id now2 _ hagents
    rw [hl] at hok
    simp only at hok
    subst hok
    simp

/-- **C5** witness: a concrete session id created, duplicated and
recreated after removal. -/
theorem c5_create_twice_and_recreate_witness :
    c10sys.create_session "s1" 1 =
      (.error "Session \x27s1\x27 already exists", c10sys) ∧
    ((c10sys.remove_session "s1").2.create_session "s1" 2).1 = .ok () := by
  refine ⟨?_, (c5_create_twice_and_recreate c10sys "s1" 1 2).2⟩
  exact (c5_create_twice_and_recreate
    (AgentSystem.new.add_agent (Agent.new "A" "role")).2 "s1" 1 2).1 0 c10sys
    (by decide)

/-- **C10** witness: removing an id unknown to a nonempty system leaves it
unchanged and succeeds. -/
theorem c10_remove_session_total_witness :
    ((c10sys.remove_session "zz").1 = .ok ()) ∧
    ((c10sys.remove_session "zz").2 = c10sys) := by
  have h := c10_remove_session_total c10sys "zz"
  refine ⟨h.1, h.2 (by decide) (by decide) (fun a ha => ?_)⟩
  have hr : c10sys.active_session = some "s1" := by decide
  rw [ha] at hr
  injection hr with h2
  subst h2
  decide

/-- The documented invariant: `active_session`, if set, is a member of
`session_ids`. -/
def session_inv (sys : AgentSystem) : Prop :=
  ∀ sid, sys.active_session = some sid → sid ∈ sys.session_ids

instance session_inv_decidable (sys : AgentSystem) : Decidable (session_inv sys) :=
  match h : sys.active_session with
  | none => .isTrue (fun _ hs => by rw [h] at hs; cases hs)
  | some a =>
    if ha : a ∈ sys.session_ids then
      .isTrue (fun sid hs => by
        rw [h] at hs; injection hs with h2; rw [← h2]; exact ha)
    else
      .isFalse (fun hc => ha (hc a h))

theorem session_frame_inv (sys sys2 : AgentSystem)
    (h1 : sys2.session_ids = sys.session_ids)
    (h2 : sys2.active_session = sys.active_session)
    (hinv : session_inv sys) : session_inv sys2 := by
  intro sid hs
  rw [h1]
  exact hinv sid (h2 ▸ hs)

theorem add_agent_frame (sys : AgentSystem) (ag : Agent) :
    (sys.add_agent ag).2.session_ids = sys.session_ids ∧
    (sys.add_agent ag).2.active_session = sys.active_session := by
  unfold AgentSystem.add_agent
  cases (lookupA sys.agents ag.name).isSome <;> exact ⟨rfl, rfl⟩

theorem remove_agent_frame (sys : AgentSystem) (n : String) :
    (sys.remove_agent n).2.session_ids = sys.session_ids ∧
    (sys.remove_agent n).2.active_session = sys.active_session := by
  rcases h1 : lookupA sys.agents n with _ | ag0
  · simp [AgentSystem.remove_agent, h1]
  · rcases h2 : lookupA (sys.remove_connections n).agents n with _ | ag1 <;>
      simp [AgentSystem.remove_connections] at h2 <;>
      simp [AgentSystem.remove_agent, h1, h2, AgentSystem.remove_connections]

theorem connect_agents_frame (sys : AgentSystem) (a b : String) :
    (sys.connect_agents a b).2.session_ids = sys.session_ids ∧
    (sys.connect_agents a b).2.active_session = sys.active_session := by
  unfold AgentSystem.connect_agents
  cases (lookupA sys.agents a).isNone
  · cases (lookupA sys.agents b).isNone <;> exact ⟨rfl, rfl⟩
  · exact ⟨rfl, rfl⟩

theorem send_message_frame (sys : AgentSystem) (from_ to_ content : String) :
    (sys.send_message from_ to_ content).2.session_ids = sys.session_ids ∧
    (sys.send_message from_ to_ content).2.active_session = sys.active_session := by
  rcases h1 : lookupA sys.agents from_ with _ | sender
  · simp [AgentSystem.send_message, h1]
  rcases h2 : lookupA sys.agents to_ with _ | recipient
  · simp [AgentSystem.send_message, h1, h2]
  cases h3 : sender.is_connected_to to_
  · simp [AgentSystem.send_message, h1, h2, h3]
  rcases h4 : sys.active_session with _ | sid
  · simp [AgentSystem.send_message, AgentSystem.get_active_session, h1, h2, h3, h4]
  rcases h5 : recipient.send_message sid (Message.new from_ to_ content) with e | r2 <;>
    simp [AgentSystem.send_message, AgentSystem.get_active_session, h1, h2, h3, h4, h5]

theorem broadcast_loop_frame (from_ content : String) (conns : List String) :
    ∀ (sys : AgentSystem) (sent : List Message),
    (AgentSystem.broadcast_loop from_ content conns sys sent).2.session_ids =
      sys.session_ids ∧
    (AgentSystem.broadcast_loop from_ content conns sys sent).2.active_session =
      sys.active_session := by
  induction conns with
  | nil => intro sys sent; exact ⟨rfl, rfl⟩
  | cons n rest ih =>
    intro sys sent
    rcases h1 : lookupA sys.agents n with _ | recipient
    · have hstep : AgentSystem.broadcast_loop from_ content (n :: rest) sys sent =
          AgentSystem.broadcast_loop from_ content rest sys sent := by
        simp [AgentSystem.broadcast_loop, h1]
      rw [hstep]; exact ih sys sent
    rcases h2 : sys.active_session with _ | sid
    · have hstep : AgentSystem.broadcast_loop from_ content (n :: rest) sys sent =
          AgentSystem.broadcast_loop from_ content rest sys sent := by
        simp [AgentSystem.broadcast_loop, AgentSystem.get_active_session, h1, h2]
      rw [hstep]
      exact ⟨(ih sys sent).1, (ih sys sent).2.trans h2⟩
    rcases h3 : recipient.send_message sid (Message.new from_ n content) with e | r2
    · have hstep : AgentSystem.broadcast_loop from_ content (n :: rest) sys sent =
          AgentSystem.broadcast_loop from_ content rest sys sent := by
        simp [AgentSystem.broadcast_loop, AgentSystem.get_active_session, h1, h2, h3]
      rw [hstep]
      exact ⟨(ih sys sent).1, (ih sys sent).2.trans h2⟩
    · have hstep : AgentSystem.broadcast_loop from_ content (n :: rest) sys sent =
          AgentSystem.broadcast_loop from_ content rest
            { sys with agents := updateA sys.agents n (fun _ => r2) }
            (sent ++ [Message.new from_ n content]) := by
        simp [AgentSystem.broadcast_loop, AgentSystem.get_active_session, h1, h2, h3]
      rw [hstep]
      refine ⟨(ih { sys with agents := updateA sys.agents n (fun _ => r2) }
        (sent ++ [Message.new from_ n content])).1,
        ((ih { sys with agents := updateA sys.agents n (fun _ => r2) }
        (sent ++ [Message.new from_ n content])).2).trans h2⟩

theorem send_broadcast_frame (sys : AgentSystem) (from_ content : String) :
    (sys.send_broadcast from_ content).2.session_ids = sys.session_ids ∧
    (sys.send_broadcast from_ content).2.active_session = sys.active_session := by
  rcases h1 : lookupA sys.agents from_ with _ | sender
  · simp [AgentSystem.send_broadcast, h1]
  · have h := broadcast_loop_frame from_ content sender.get_connections sys []
    rcases hl : AgentSystem.broadcast_loop from_ content sender.get_connections sys []
      with ⟨sent, sys2⟩
    rw [hl] at h
    have hb : (sys.send_broadcast from_ content).2 = sys2 := by
      simp [AgentSystem.send_broadcast, h1, hl]
    rw [hb]
    exact h

theorem remove_session_fields (sys : AgentSystem) (session_id : String) :
    (sys.remove_session session_id).2.session_ids =
      sys.session_ids.filter (fun s => s != session_id) ∧
    (sys.remove_session session_id).2.active_session =
      (match sys.active_session with
       | some active => if active = session_id then none else some active
       | none => none) :=
  ⟨rfl, rfl⟩

/-- **C7** The invariant "`active_session`, if set, is a member of
`session_ids`" holds for the empty system and is preserved by every
operation; `set_active_session` fails with `SessionError::NotFound` for
unknown ids, and `remove_session` clears `active_session` exactly when it
equalled the removed id. -/
theorem c7_active_session_member_invariant :
    session_inv AgentSystem.new ∧
    (∀ sys ag, session_inv sys → session_inv (sys.add_agent ag).2) ∧
    (∀ sys n, session_inv sys → session_inv (sys.remove_agent n).2) ∧
    (∀ sys a b, session_inv sys → session_inv (sys.connect_agents a b).2) ∧
    (∀ sys a b, session_inv sys → session_inv (sys.disconnect_agents a b).2) ∧
    (∀ sys sid now, session_inv sys → session_inv (sys.create_session sid now).2) ∧
    (∀ sys sid, session_inv sys → session_inv (sys.set_active_session sid).2) ∧
    (∀ sys sid, session_inv sys → session_inv (sys.remove_session sid).2) ∧
    (∀ sys f t c, session_inv sys → session_inv (sys.send_message f t c).2) ∧
    (∀ sys f c, session_inv sys → session_inv (sys.send_broadcast f c).2) ∧
    (∀ (sys : AgentSystem) (sid : String), sid ∉ sys.session_ids →
      (sys.set_active_session sid).1 = .error (.NotFound sid)) ∧
    (∀ (sys : AgentSystem) (sid : String),
      (sys.remove_session sid).2.active_session =
      (if sys.active_session = some sid then none else sys.active_session)) := by
  refine ⟨?_, ?_, ?_, ?_, ?_, ?_, ?_, ?_, ?_, ?_, ?_, ?_⟩
  · intro sid hs; cases hs
  · intro sys ag hinv
    exact session_frame_inv _ _ (add_agent_frame sys ag).1 (add_agent_frame sys ag).2 hinv
  · intro sys n hinv
    exact session_frame_inv _ _ (remove_agent_frame sys n).1
      (remove_agent_frame sys n).2 hinv
  · intro sys a b hinv
    exact session_frame_inv _ _ (connect_agents_frame sys a b).1
      (connect_agents_frame sys a b).2 hinv
  · intro sys a b hinv
    exact session_frame_inv sys ((sys.disconnect_agents a b).2) rfl rfl hinv
  · intro sys sid now hinv
    by_cases hmem : sid ∈ sys.session_ids
    · have hstate : (sys.create_session sid now).2 = sys := by
        simp [AgentSystem.create_session, hmem]
      rw [hstate]; exact hinv
    · rcases hl : AgentSystem.create_session_loop sid now sys.agents with ⟨r, ags⟩
      rcases r with e | u
      · have hstate : (sys.create_session sid now).2 = { sys with agents := ags } := by
          simp [AgentSystem.create_session, hmem, hl]
        rw [hstate]; exact hinv
      · obtain ⟨⟩ := u
        have hstate : (sys.create_session sid now).2 =
            { agents := ags, session_ids := sys.session_ids ++ [sid],
              active_session :=
                match sys.active_session with
                | none => some sid
                | some a => some a } := by
          simp [AgentSystem.create_session, hmem, hl]
        rw [hstate]
        intro sid2 hs
        rcases hact : sys.active_session with _ | a <;> simp only [hact] at hs
        · injection hs with h2
          rw [← h2]
          exact List.mem_append_right _ (List.mem_singleton.mpr rfl)
        · injection hs with h2
          rw [← h2]
          exact List.mem_append_left _ (hinv a hact)
  · intro sys sid hinv
    by_cases hmem : sid ∈ sys.session_ids
    · have hstate : (sys.set_active_session sid).2 =
          { sys with active_session := some sid } := by
        simp [AgentSystem.set_active_session, hmem]
      rw [hstate]
      intro sid2 hs
      injection hs with h2
      rw [← h2]
      exact hmem
    · have hstate : (sys.set_active_session sid).2 = sys := by
        simp [AgentSystem.set_active_session, hmem]
      rw [hstate]; exact hinv
  · intro sys sid hinv sid2 hs
    rw [(remove_session_fields sys sid).2] at hs
    rw [(remove_session_fields sys sid).1]
    rcases hact : sys.active_session with _ | a <;> simp only [hact] at hs
    · cases hs
    · by_cases ha : a = sid
      · rw [if_pos ha] at hs; cases hs
      · rw [if_neg ha] at hs
        injection hs with h2
        refine List.mem_filter.mpr ⟨h2 ▸ hinv a hact, ?_⟩
        rw [← h2]
        simpa using ha
  · intro sys f t c hinv
    exact session_frame_inv _ _ (send_message_frame sys f t c).1
      (send_message_frame sys f t c).2 hinv
  · intro sys f c hinv
    exact session_frame_inv _ _ (send_broadcast_frame sys f c).1
      (send_broadcast_frame sys f c).2 hinv
  · intro sys sid hmem
    simp [AgentSystem.set_active_session, hmem]
  · intro sys sid
    rw [(remove_session_fields sys sid).2]
    rcases hact : sys.active_session with _ | a
    · simp
    · by_cases ha : a = sid <;> simp [ha]

theorem c7_active_session_member_invariant_witness :
    session_inv (c10sys.create_session "s2" 5).2 ∧
    (c10sys.set_active_session "zz").1 = .error (.NotFound "zz") ∧
    (c10sys.remove_session "s1").2.active_session =
      (if c10sys.active_session = some "s1" then none else c10sys.active_session) := by
  have h := c7_active_session_member_invariant
  exact ⟨h.2.2.2.2.2.1 c10sys "s2" 5 (by decide),
    h.2.2.2.2.2.2.2.2.2.2.1 c10sys "zz" (by decide),
    h.2.2.2.2.2.2.2.2.2.2.2 c10sys "s1"⟩


/-- **C1** counterexample system: agent `C` is registered *after* session
`s1` was created, so `C` has no session for the active id `s1`. -/
def c1sysB : AgentSystem :=
  let s1 := (AgentSystem.new.add_agent (Agent.new "A" "ra")).2
  let s2 := (s1.create_session "s1" 0).2
  let s3 := (s2.add_agent (Agent.new "C" "rc")).2
  (s3.connect_agents "A" "C").2

/-- **C1** counterexample: both agents are registered, the sender is
connected to the recipient and an active session exists, yet
`send_message` fails (with the recipient's session-not-found error) —
refuting "in every other case it succeeds". -/
theorem c1_send_message_counterexample :
    (lookupA c1sysB.agents "A").isSome = true ∧
    (lookupA c1sysB.agents "C").isSome = true ∧
    ((lookupA c1sysB.agents "A").map (fun ag => ag.is_connected_to "C")) =
      some true ∧
    c1sysB.active_session = some "s1" ∧
    (c1sysB.send_message "A" "C" "hi").1 =
      .error (.sessionErr "Session \x27s1\x27 not found") := by decide

/-- **C1** (amended) `send_message` fails with `NotFound` when either name
is unregistered, with `NotConnected` when both are registered but the
sender is not connected to the recipient, with `NoActiveSession` when no
active session is set, and — the case the original claim misses — with the
recipient's session-not-found error when an active session exists but the
recipient holds no session for it; in every other case it succeeds,
returning `Message{from, to, content}` and appending exactly that message
to the recipient's queue for the active session, leaving all other agents,
sessions, the session-id set and the active session unchanged. -/
theorem c1_send_message_cases (sys : AgentSystem) (from_ to_ content : String) :
    (lookupA sys.agents from_ = none →
      sys.send_message from_ to_ content =
        (.error (.agentErr (.NotFound from_)), sys)) ∧
    (∀ sender, lookupA sys.agents from_ = some sender →
      lookupA sys.agents to_ = none →
      sys.send_message from_ to_ content =
        (.error (.agentErr (.NotFound to_)), sys)) ∧
    (∀ sender recipient, lookupA sys.agents from_ = some sender →
      lookupA sys.agents to_ = some recipient →
      sender.is_connected_to to_ = false →
      sys.send_message from_ to_ content =
        (.error (.agentErr (.NotConnected from_ to_)), sys)) ∧
    (∀ sender recipient, lookupA sys.agents from_ = some sender →
      lookupA sys.agents to_ = some recipient →
      sender.is_connected_to to_ = true →
      sys.active_session = none →
      sys.send_message from_ to_ content =
        (.error (.agentErr (.NoActiveSession to_)), sys)) ∧
    (∀ sender recipient session_id,
      lookupA sys.agents from_ = some sender →
      lookupA sys.agents to_ = some recipient →
      sender.is_connected_to to_ = true →
      sys.active_session = some session_id →
      lookupA recipient.sessions session_id = none →
      sys.send_message from_ to_ content =
        (.error (.sessionErr s!"Session \x27{session_id}\x27 not found"), sys)) ∧
    (∀ sender recipient session_id sess,
      lookupA sys.agents from_ = some sender →
      lookupA sys.agents to_ = some recipient →
      sender.is_connected_to to_ = true →
      sys.active_session = some session_id →
      lookupA recipient.sessions session_id = some sess →
      (sys.send_message from_ to_ content).1 =
        .ok (Message.new from_ to_ content) ∧
      (sys.send_message from_ to_ content).2.session_ids = sys.session_ids ∧
      (sys.send_message from_ to_ content).2.active_session =
        sys.active_session ∧
      (∀ n, n ≠ to_ →
        lookupA (sys.send_message from_ to_ content).2.agents n =
          lookupA sys.agents n) ∧
      ((lookupA (sys.send_message from_ to_ content).2.agents to_).map
          (fun r => lookupA r.sessions session_id)) =
        some (some { sess with message_stack :=
          sess.message_stack ++ [Message.new from_ to_ content] }) ∧
      (∀ sid2, sid2 ≠ session_id →
        (lookupA (sys.send_message from_ to_ content).2.agents to_).map
            (fun r => lookupA r.sessions sid2) =
          some (lookupA recipient.sessions sid2))) := by
  refine ⟨?_, ?_, ?_, ?_, ?_, ?_⟩
  · intro h1
    simp [AgentSystem.send_message, h1]
  · intro sender h1 h2
    simp [AgentSystem.send_message, h1, h2]
  · intro sender recipient h1 h2 h3
    simp [AgentSystem.send_message, h1, h2, h3]
  · intro sender recipient h1 h2 h3 h4
    simp [AgentSystem.send_message, AgentSystem.get_active_session, h1, h2, h3, h4]
  · intro sender recipient session_id h1 h2 h3 h4 h5
    simp [AgentSystem.send_message, AgentSystem.get_active_session,
      Agent.send_message, h1, h2, h3, h4, h5]
  · intro sender recipient session_id sess h1 h2 h3 h4 h5
    have hsend : recipient.send_message session_id (Message.new from_ to_ content) =
        .ok { recipient with
                sessions := updateA recipient.sessions session_id
                  (fun s => s.push_message_to_stack (Message.new from_ to_ content)) } := by
      simp [Agent.send_message, h5]
    have hres : sys.send_message from_ to_ content =
        (.ok (Message.new from_ to_ content),
         { sys with
             agents := updateA sys.agents to_ (fun _ =>
               { recipient with
                   sessions := updateA recipient.sessions session_id
                     (fun s => s.push_message_to_stack (Message.new from_ to_ content)) }) }) := by
      simp [AgentSystem.send_message, AgentSystem.get_active_session,
        h1, h2, h3, h4, hsend]
    have hag : (sys.send_message from_ to_ content).2.agents =
        updateA sys.agents to_ (fun _ =>
          { recipient with
              sessions := updateA recipient.sessions session_id
                (fun s => s.push_message_to_stack (Message.new from_ to_ content)) }) := by
      rw [hres]
    refine ⟨by rw [hres], by rw [hres], by rw [hres], ?_, ?_, ?_⟩
    · intro n hn
      rw [hag]
      exact lookupA_updateA_ne _ _ _ _ hn
    · rw [hag, lookupA_updateA_self, h2]
      simp only [Option.map_some']
      rw [lookupA_updateA_self, h5]
      rfl
    · intro sid2 hsid2
      rw [hag, lookupA_updateA_self, h2]
      simp only [Option.map_some']
      congr 1
      exact lookupA_updateA_ne _ _ _ _ hsid2

/-- **C1** witness system: two agents registered before the session is
created, then connected. -/
def c1sysA : AgentSystem :=
  let s1 := (AgentSystem.new.add_agent (Agent.new "R" "r1")).2
  let s2 := (s1.add_agent (Agent.new "A" "r2")).2
  let s3 := (s2.connect_agents "R" "A").2
  (s3.create_session "s1" 0).2

/-- **C1** witness: the success case on a concrete connected pair with an
active session — the message comes back and lands in the recipient's
queue. -/
theorem c1_send_message_cases_witness :
    (c1sysA.send_message "R" "A" "hello").1 =
      .ok (Message.new "R" "A" "hello") ∧
    ((lookupA (c1sysA.send_message "R" "A" "hello").2.agents "A").map
        (fun r => lookupA r.sessions "s1")) =
      some (some ⟨"s1", [], [Message.new "R" "A" "hello"], 0, some 0⟩) := by
  have h := (c1_send_message_cases c1sysA "R" "A" "hello").2.2.2.2.2
    (Agent.mk "R" "r1" ["A"] [("s1", ⟨"s1", [], [], 0, some 0⟩)])
    (Agent.mk "A" "r2" ["R"] [("s1", ⟨"s1", [], [], 0, some 0⟩)])
    "s1" (⟨"s1", [], [], 0, some 0⟩ : Session)
    (by decide) (by decide) (by decide) (by decide) (by decide)
  exact ⟨h.1, h.2.2.2.2.1⟩


/-- Whether an agent currently holds a consumer-task handle for the given
session id. -/
def holds_handle (a : Agent) (session_id : String) : Bool :=
  match lookupA a.sessions session_id with
  | some s => s.join_handle.isSome
  | none => false

theorem take_fst_isSome (a : Agent) (session_id : String) :
    (a.take_session_join_handle session_id).1.isSome = holds_handle a session_id := by
  unfold Agent.take_session_join_handle holds_handle
  rcases lookupA a.sessions session_id with _ | s <;> rfl

theorem collect_handles_cons (session_id k : String) (agent : Agent)
    (rest : List (String × Agent)) :
    AgentSystem.collect_handles session_id ((k, agent) :: rest) =
      ((match (agent.take_session_join_handle session_id).1 with
        | some handle => handle :: (AgentSystem.collect_handles session_id rest).1
        | none => (AgentSystem.collect_handles session_id rest).1),
       (k, (agent.take_session_join_handle session_id).2) ::
         (AgentSystem.collect_handles session_id rest).2) := by
  rcases ht : agent.take_session_join_handle session_id with ⟨h, agent2⟩
  rcases hc : AgentSystem.collect_handles session_id rest with ⟨hs, rest2⟩
  simp [AgentSystem.collect_handles, ht, hc]

theorem collect_handles_snd (session_id : String)
    (agents : List (String × Agent)) :
    (AgentSystem.collect_handles session_id agents).2 =
      agents.map (fun p => (p.1, (p.2.take_session_join_handle session_id).2)) := by
  induction agents with
  | nil => rfl
  | cons q rest ih =>
    obtain ⟨k, agent⟩ := q
    rw [collect_handles_cons]
    simp only [List.map_cons]
    rw [ih]

theorem collect_handles_fst_nil_iff (session_id : String)
    (agents : List (String × Agent)) :
    (AgentSystem.collect_handles session_id agents).1 = [] ↔
      ∀ p ∈ agents, holds_handle p.2 session_id = false := by
  induction agents with
  | nil => simp [AgentSystem.collect_handles]
  | cons q rest ih =>
    obtain ⟨k, agent⟩ := q
    rw [collect_handles_cons]
    simp only
    constructor
    · intro h
      rcases ht : (agent.take_session_join_handle session_id).1 with _ | handle
      · rw [ht] at h
        simp only at h
        intro p hp
        rcases List.mem_cons.mp hp with hp1 | hp2
        · rw [hp1]
          rw [← take_fst_isSome, ht]
          rfl
        · exact (ih.mp h) p hp2
      · rw [ht] at h
        cases h
    · intro hall
      have hhead : holds_handle agent session_id = false :=
        hall (k, agent) (List.mem_cons_self _ _)
      rcases ht : (agent.take_session_join_handle session_id).1 with _ | handle
      · simp only
        exact ih.mpr (fun p hp => hall p (List.mem_cons_of_mem _ hp))
      · exfalso
        rw [← take_fst_isSome, ht] at hhead
        cases hhead

theorem lookupA_map_value {α : Type} (l : List (String × α)) (key : String)
    (φ : α → α) :
    lookupA (l.map (fun p => (p.1, φ p.2))) key = (lookupA l key).map φ := by
  induction l with
  | nil => rfl
  | cons p rest ih =>
    obtain ⟨k, v⟩ := p
    by_cases hk : k = key <;> simp [lookupA, hk, ih]

theorem take_sessions_isSome (a : Agent) (session_id sid2 : String) :
    (lookupA (a.take_session_join_handle session_id).2.sessions sid2).isSome =
      (lookupA a.sessions sid2).isSome := by
  rcases h : lookupA a.sessions session_id with _ | s
  · simp [Agent.take_session_join_handle, h]
  · simp only [Agent.take_session_join_handle, h]
    by_cases h2 : sid2 = session_id
    · subst h2
      rw [lookupA_updateA_self]
      rw [h]
      rfl
    · rw [lookupA_updateA_ne _ _ _ _ h2]

/-- **C8** `wait_for_session_tasks(id)` fails with the "no tasks found"
error — leaving the session-id set, the active session and every agent's
possession of the session untouched — exactly when no agent holds a task
handle for `id`; when at least one handle exists, the session is removed
(from the id set and from every agent) before the collected tasks are
awaited, and the call returns `Ok` or the aggregated panic error. -/
theorem c8_wait_for_session_tasks (sys : AgentSystem) (session_id : String)
    (panicked : Nat → Bool) :
    ((∀ p ∈ sys.agents, holds_handle p.2 session_id = false) →
      (sys.wait_for_session_tasks session_id panicked).1 =
        .error s!"No active processing tasks found for session \x27{session_id}\x27" ∧
      (sys.wait_for_session_tasks session_id panicked).2.session_ids =
        sys.session_ids ∧
      (sys.wait_for_session_tasks session_id panicked).2.active_session =
        sys.active_session ∧
      (∀ n, ((lookupA (sys.wait_for_session_tasks session_id panicked).2.agents n).map
          (fun a => (lookupA a.sessions session_id).isSome)) =
        ((lookupA sys.agents n).map
          (fun a => (lookupA a.sessions session_id).isSome)))) ∧
    ((∃ p ∈ sys.agents, holds_handle p.2 session_id = true) →
      session_id ∉ (sys.wait_for_session_tasks session_id panicked).2.session_ids ∧
      (∀ p ∈ (sys.wait_for_session_tasks session_id panicked).2.agents,
        lookupA p.2.sessions session_id = none) ∧
      ((sys.wait_for_session_tasks session_id panicked).1 = .ok () ∨
       (sys.wait_for_session_tasks session_id panicked).1 =
         .error "Some tasks panicked")) := by
  rcases hcoll : AgentSystem.collect_handles session_id sys.agents
    with ⟨handles, agents2⟩
  have hsnd : agents2 =
      sys.agents.map (fun p => (p.1, (p.2.take_session_join_handle session_id).2)) := by
    have h := collect_handles_snd session_id sys.agents
    rw [hcoll] at h
    exact h
  constructor
  · intro hall
    have hnil : handles = [] := by
      have h := (collect_handles_fst_nil_iff session_id sys.agents).mpr hall
      rw [hcoll] at h
      exact h
    subst hnil
    have hw : sys.wait_for_session_tasks session_id panicked =
        (.error s!"No active processing tasks found for session \x27{session_id}\x27",
         { sys with agents := agents2 }) := by
      simp [AgentSystem.wait_for_session_tasks, hcoll]
    rw [hw]
    refine ⟨rfl, rfl, rfl, ?_⟩
    intro n
    show (lookupA agents2 n).map _ = _
    rw [hsnd,
      lookupA_map_value sys.agents n (fun a => (a.take_session_join_handle session_id).2)]
    rcases lookupA sys.agents n with _ | a
    · rfl
    · simp only [Option.map_some']
      rw [take_sessions_isSome]
  · intro hex
    have hne : handles ≠ [] := by
      intro hc
      subst hc
      have h := (collect_handles_fst_nil_iff session_id sys.agents).mp
        (by rw [hcoll])
      rcases hex with ⟨p, hp, hph⟩
      rw [h p hp] at hph
      cases hph
    have hempty : handles.isEmpty = false := by
      rcases handles with _ | ⟨h0, hrest⟩
      · exact absurd rfl hne
      · rfl
    have hrs : ({ sys with agents := agents2 } : AgentSystem).remove_session
        session_id =
        (.ok (), (({ sys with agents := agents2 } : AgentSystem).remove_session
          session_id).2) := rfl
    have hw : sys.wait_for_session_tasks session_id panicked =
        ((if handles.any panicked then .error "Some tasks panicked" else .ok ()),
         (({ sys with agents := agents2 } : AgentSystem).remove_session
           session_id).2) := by
      simp only [AgentSystem.wait_for_session_tasks, hcoll, hempty]
      rw [hrs]
      simp only [Bool.false_eq_true, if_false]
      rcases handles.any panicked with _ | _ <;> rfl
    rw [hw]
    refine ⟨?_, ?_, ?_⟩
    · rw [(remove_session_fields _ _).1]
      intro hc
      have := (List.mem_filter.mp hc).2
      simp at this
    · exact remove_session_agents_none _ _
    · rcases handles.any panicked with _ | _
      · left; rfl
      · right; rfl


/-- **C8** witness: a system without handles fails with "no tasks found";
one with a handle removes the session and completes. -/
theorem c8_wait_for_session_tasks_witness :
    ((c2sys.wait_for_session_tasks "s1" (fun _ => false)).1 =
      .error "No active processing tasks found for session \x27s1\x27") ∧
    ("s1" ∉ (c10sys.wait_for_session_tasks "s1" (fun _ => false)).2.session_ids) ∧
    ((c10sys.wait_for_session_tasks "s1" (fun _ => false)).1 = .ok () ∨
     (c10sys.wait_for_session_tasks "s1" (fun _ => false)).1 =
       .error "Some tasks panicked") := by
  have h1 := (c8_wait_for_session_tasks c2sys "s1" (fun _ => false)).1 (by decide)
  have h2 := (c8_wait_for_session_tasks c10sys "s1" (fun _ => false)).2 (by decide)
  exact ⟨h1.1, h2.1, h2.2.2⟩


/-- A name can actually receive a routed message: it is registered and its
agent holds a session for the system's active session id. -/
def reachableB (sys : AgentSystem) (n : String) : Bool :=
  match lookupA sys.agents n, sys.active_session with
  | some r, some sid => (lookupA r.sessions sid).isSome
  | _, _ => false

/-- The effect of `Agent::send_message` on the recipient: the message is
appended to the pending queue of the addressed session. -/
def enqueue_pending (r : Agent) (session_id : String) (m : Message) : Agent :=
  { r with
      sessions := updateA r.sessions session_id
        (fun s => s.push_message_to_stack m) }

theorem agent_send_message_ok (r : Agent) (session_id : String) (m : Message)
    (sess : Session) (h : lookupA r.sessions session_id = some sess) :
    r.send_message session_id m = .ok (enqueue_pending r session_id m) := by
  simp [Agent.send_message, enqueue_pending, h]

/-- The state update of the broadcast loop when recipient `n0` accepts. -/
def broadcast_step (sys : AgentSystem) (n0 sid0 : String) (m : Message) :
    AgentSystem :=
  { sys with
      agents := updateA sys.agents n0
        (fun _ => enqueue_pending (Option.getD (lookupA sys.agents n0)
          (Agent.new n0 "")) sid0 m) }

theorem broadcast_loop_spec (from_ content : String) :
    ∀ (conns : List String) (sys : AgentSystem) (sent : List Message),
      conns.Nodup →
      (AgentSystem.broadcast_loop from_ content conns sys sent).1 =
        sent ++ (conns.filter (reachableB sys)).map
          (fun n => Message.new from_ n content) ∧
      (∀ n, n ∉ conns →
        lookupA (AgentSystem.broadcast_loop from_ content conns sys sent).2.agents n =
          lookupA sys.agents n) ∧
      (∀ n ∈ conns, reachableB sys n = false →
        lookupA (AgentSystem.broadcast_loop from_ content conns sys sent).2.agents n =
          lookupA sys.agents n) ∧
      (∀ n ∈ conns, ∀ r sid sess, lookupA sys.agents n = some r →
        sys.active_session = some sid → lookupA r.sessions sid = some sess →
        lookupA (AgentSystem.broadcast_loop from_ content conns sys sent).2.agents n =
          some (enqueue_pending r sid (Message.new from_ n content))) := by
  intro conns
  induction conns with
  | nil =>
    intro sys sent _
    refine ⟨by simp [AgentSystem.broadcast_loop], fun n _ => rfl, ?_, ?_⟩
    · intro n hn; cases hn
    · intro n hn; cases hn
  | cons n0 rest ih =>
    intro sys sent hnd
    have hn0 : n0 ∉ rest := (List.nodup_cons.mp hnd).1
    have hr : rest.Nodup := (List.nodup_cons.mp hnd).2
    rcases h1 : lookupA sys.agents n0 with _ | recipient
    · have hstep : AgentSystem.broadcast_loop from_ content (n0 :: rest) sys sent =
          AgentSystem.broadcast_loop from_ content rest sys sent := by
        simp [AgentSystem.broadcast_loop, h1]
      have hreach : reachableB sys n0 = false := by
        unfold reachableB; rw [h1]
      obtain ⟨ih1, ih2, ih3, ih4⟩ := ih sys sent hr
      rw [hstep]
      refine ⟨by rw [ih1]; simp [List.filter_cons, hreach], ?_, ?_, ?_⟩
      · intro n hn
        exact ih2 n (fun hc => hn (List.mem_cons_of_mem _ hc))
      · intro n hn hnr
        rcases List.mem_cons.mp hn with rfl | hn2
        · exact ih2 n hn0
        · exact ih3 n hn2 hnr
      · intro n hn r sid sess ha hb hc
        rcases List.mem_cons.mp hn with rfl | hn2
        · rw [h1] at ha; cases ha
        · exact ih4 n hn2 r sid sess ha hb hc
    rcases h2 : sys.active_session with _ | sid0
    · have hstep : AgentSystem.broadcast_loop from_ content (n0 :: rest) sys sent =
          AgentSystem.broadcast_loop from_ content rest sys sent := by
        simp [AgentSystem.broadcast_loop, AgentSystem.get_active_session, h1, h2]
      have hreach : ∀ n, reachableB sys n = false := by
        intro n
        unfold reachableB
        rw [h2]
        rcases lookupA sys.agents n with _ | r <;> rfl
      obtain ⟨ih1, ih2, ih3, ih4⟩ := ih sys sent hr
      rw [hstep]
      refine ⟨by rw [ih1]; simp [List.filter_cons, hreach n0], ?_, ?_, ?_⟩
      · intro n hn
        exact ih2 n (fun hc => hn (List.mem_cons_of_mem _ hc))
      · intro n hn hnr
        rcases List.mem_cons.mp hn with rfl | hn2
        · exact ih2 n hn0
        · exact ih3 n hn2 hnr
      · intro n hn r sid sess ha hb hc
        cases hb
    rcases h3 : lookupA recipient.sessions sid0 with _ | sess0
    · have hsend : recipient.send_message sid0 (Message.new from_ n0 content) =
          .error s!"Session \x27{sid0}\x27 not found" := by
        simp [Agent.send_message, h3]
      have hstep : AgentSystem.broadcast_loop from_ content (n0 :: rest) sys sent =
          AgentSystem.broadcast_loop from_ content rest sys sent := by
        simp [AgentSystem.broadcast_loop, AgentSystem.get_active_session,
          h1, h2, hsend]
      have hreach : reachableB sys n0 = false := by
        unfold reachableB
        simp only [h1, h2]
        rw [h3]
        rfl
      obtain ⟨ih1, ih2, ih3, ih4⟩ := ih sys sent hr
      rw [hstep]
      refine ⟨by rw [ih1]; simp [List.filter_cons, hreach], ?_, ?_, ?_⟩
      · intro n hn
        exact ih2 n (fun hc => hn (List.mem_cons_of_mem _ hc))
      · intro n hn hnr
        rcases List.mem_cons.mp hn with rfl | hn2
        · exact ih2 n hn0
        · exact ih3 n hn2 hnr
      · intro n hn r sid sess ha hb hc
        rcases List.mem_cons.mp hn with rfl | hn2
        · rw [h1] at ha
          injection ha with ha2
          injection hb with hb2
          rw [← ha2, ← hb2] at hc
          rw [h3] at hc
          cases hc
        · exact ih4 n hn2 r sid sess ha (h2.trans hb) hc
    · have hsend : recipient.send_message sid0 (Message.new from_ n0 content) =
          .ok (enqueue_pending recipient sid0 (Message.new from_ n0 content)) :=
        agent_send_message_ok recipient sid0 (Message.new from_ n0 content) sess0 h3
      have hstep : AgentSystem.broadcast_loop from_ content (n0 :: rest) sys sent =
          AgentSystem.broadcast_loop from_ content rest
            { sys with
                agents := updateA sys.agents n0
                  (fun _ => enqueue_pending recipient sid0
                    (Message.new from_ n0 content)) }
            (sent ++ [Message.new from_ n0 content]) := by
        simp [AgentSystem.broadcast_loop, AgentSystem.get_active_session,
          h1, h2, hsend]
      have hreach : reachableB sys n0 = true := by
        unfold reachableB
        simp only [h1, h2]
        rw [h3]
        rfl
      have hlook2 : ∀ m, m ≠ n0 →
          lookupA (updateA sys.agents n0
            (fun _ => enqueue_pending recipient sid0 (Message.new from_ n0 content))) m =
          lookupA sys.agents m := fun m hm => lookupA_updateA_ne _ _ _ _ hm
      have hreq : ∀ m ∈ rest,
          reachableB { sys with
              agents := updateA sys.agents n0
                (fun _ => enqueue_pending recipient sid0
                  (Message.new from_ n0 content)) } m =
          reachableB sys m := by
        intro m hm
        have hmne : m ≠ n0 := fun hc => hn0 (hc ▸ hm)
        unfold reachableB
        rw [show lookupA ({ sys with
            agents := updateA sys.agents n0
              (fun _ => enqueue_pending recipient sid0
                (Message.new from_ n0 content)) } : AgentSystem).agents m =
          lookupA sys.agents m from hlook2 m hmne]
      obtain ⟨ih1, ih2, ih3, ih4⟩ := ih
        { sys with
            agents := updateA sys.agents n0
              (fun _ => enqueue_pending recipient sid0
                (Message.new from_ n0 content)) }
        (sent ++ [Message.new from_ n0 content]) hr
      rw [hstep]
      refine ⟨?_, ?_, ?_, ?_⟩
      · rw [ih1, List.filter_congr hreq]
        simp [List.filter_cons, hreach, List.append_assoc]
      · intro n hn
        have hn2 : n ∉ rest := fun hc => hn (List.mem_cons_of_mem _ hc)
        have hnne : n ≠ n0 := fun hc => hn (hc ▸ List.mem_cons_self _ _)
        rw [ih2 n hn2]
        exact hlook2 n hnne
      · intro n hn hnr
        rcases List.mem_cons.mp hn with rfl | hn2
        · rw [hreach] at hnr; cases hnr
        · have hnne : n ≠ n0 := fun hc => hn0 (hc ▸ hn2)
          rw [ih3 n hn2 ((hreq n hn2).trans hnr)]
          exact hlook2 n hnne
      · intro n hn r sid sess ha hb hc
        rcases List.mem_cons.mp hn with rfl | hn2
        · rw [ih2 n hn0]
          show lookupA (updateA sys.agents n
              (fun _ => enqueue_pending recipient sid0 (Message.new from_ n content))) n =
            some (enqueue_pending r sid (Message.new from_ n content))
          rw [lookupA_updateA_self, h1]
          rw [h1] at ha
          injection ha with ha2
          injection hb with hb2
          rw [← ha2, ← hb2]
          rfl
        · have hnne : n ≠ n0 := fun hc => hn0 (hc ▸ hn2)
          exact ih4 n hn2 r sid sess ((hlook2 n hnne).trans ha) (h2.trans hb) hc


/-- **C6** `send_broadcast(from, content)` fails only when `from` is
unregistered; otherwise it succeeds, returning exactly one message (with
the given sender and content) per connection of `from` that is registered
and holds the active session, appending exactly that message to each such
recipient's queue; connections without the active session are skipped
without error, and agents not connected to `from` are untouched. -/
theorem c6_send_broadcast_spec (sys : AgentSystem) (from_ content : String) :
    (lookupA sys.agents from_ = none →
      sys.send_broadcast from_ content =
        (.error s!"Sender agent \x27{from_}\x27 not found", sys)) ∧
    (∀ sender, lookupA sys.agents from_ = some sender →
      sender.connections.Nodup →
      (sys.send_broadcast from_ content).1 =
        .ok ((sender.connections.filter (reachableB sys)).map
          (fun n => Message.new from_ n content)) ∧
      (sys.send_broadcast from_ content).2.session_ids = sys.session_ids ∧
      (sys.send_broadcast from_ content).2.active_session = sys.active_session ∧
      (∀ n, n ∉ sender.connections →
        lookupA (sys.send_broadcast from_ content).2.agents n =
          lookupA sys.agents n) ∧
      (∀ n ∈ sender.connections, reachableB sys n = false →
        lookupA (sys.send_broadcast from_ content).2.agents n =
          lookupA sys.agents n) ∧
      (∀ n ∈ sender.connections, ∀ r sid sess,
        lookupA sys.agents n = some r → sys.active_session = some sid →
        lookupA r.sessions sid = some sess →
        lookupA (sys.send_broadcast from_ content).2.agents n =
          some (enqueue_pending r sid (Message.new from_ n content)))) := by
  constructor
  · intro h1
    simp [AgentSystem.send_broadcast, h1]
  · intro sender h1 hnd
    have hfst : (sys.send_broadcast from_ content).1 =
        .ok (AgentSystem.broadcast_loop from_ content sender.connections sys []).1 := by
      simp only [AgentSystem.send_broadcast, h1, Agent.get_connections]
    have hsnd2 : (sys.send_broadcast from_ content).2 =
        (AgentSystem.broadcast_loop from_ content sender.connections sys []).2 := by
      simp only [AgentSystem.send_broadcast, h1, Agent.get_connections]
    obtain ⟨hl1, hl2, hl3, hl4⟩ :=
      broadcast_loop_spec from_ content sender.connections sys [] hnd
    have hframe := broadcast_loop_frame from_ content sender.connections sys []
    refine ⟨?_, ?_, ?_, ?_, ?_, ?_⟩
    · rw [hfst, hl1]; rfl
    · rw [hsnd2]; exact hframe.1
    · rw [hsnd2]; exact hframe.2
    · intro n hn; rw [hsnd2]; exact hl2 n hn
    · intro n hn hnr; rw [hsnd2]; exact hl3 n hn hnr
    · intro n hn r sid sess ha hb hc
      rw [hsnd2]; exact hl4 n hn r sid sess ha hb hc

/-- The three-agent broadcast scenario: `B` is connected to `A1` and `A2`
but not `A3`, all share session `ts`. -/
def c6sys : AgentSystem :=
  let s1 := (AgentSystem.new.add_agent (Agent.new "B" "x")).2
  let s2 := (s1.add_agent (Agent.new "A1" "x")).2
  let s3 := (s2.add_agent (Agent.new "A2" "x")).2
  let s4 := (s3.add_agent (Agent.new "A3" "x")).2
  let s5 := (s4.create_session "ts" 0).2
  let s6 := (s5.connect_agents "B" "A1").2
  (s6.connect_agents "B" "A2").2

/-- **C6** witness: broadcasting from `B` reaches exactly its two
connections, and the unconnected agent is untouched. -/
theorem c6_send_broadcast_spec_witness :
    (c6sys.send_broadcast "B" "Hello").1 =
      .ok [Message.new "B" "A1" "Hello", Message.new "B" "A2" "Hello"] ∧
    lookupA (c6sys.send_broadcast "B" "Hello").2.agents "A3" =
      lookupA c6sys.agents "A3" := by
  have h := (c6_send_broadcast_spec c6sys "B" "Hello").2
    (Agent.mk "B" "x" ["A1", "A2"] [("ts", ⟨"ts", [], [], 0, some 0⟩)])
    (by decide) (by decide)
  refine ⟨(h.1).trans (by decide), ?_⟩
  exact h.2.2.2.1 "A3" (by decide)

end MultiAgent
